import Mathlib

/-!
Verification development for the pip-services3-sqlite-node persistence library.

The JavaScript/TypeScript sources are shallowly embedded: JS strings become
lists of characters, nullable values become `Option`, key-value row maps
become association lists (preserving JS property-enumeration order), and the
callback-driven driver calls become either explicit result parameters or a
small sequential program type whose interpreter records the issued SQL
statements in order.
-/

namespace SqliteNode

/-- JS strings are modelled as lists of characters. -/
abbrev Str := List Char

/-- Embeds a Lean string literal into the character-list model. -/
def str (s : String) : Str := s.data

/-- From SqlitePersistence.quoteIdentifier: returns null and the empty string
unchanged, returns strings already starting with a double quote unchanged, and
wraps every other string in double quotes. -/
def quoteIdentifier : Option Str → Option Str
  | none => none
  | some [] => some []
  | some (c :: cs) =>
    if c = '"' then some (c :: cs)
    else some ('"' :: (c :: cs) ++ ['"'])

/-- The quoteIdentifier helper applied to a non-null string, as it is used on
table names and column keys inside query builders. -/
def quoteIdS (v : Str) : Str :=
  match v with
  | [] => []
  | c :: cs =>
    if c = '"' then c :: cs
    else '"' :: (c :: cs) ++ ['"']

/-- Joining a list of string pieces with a separator, the way the spec claims
the generator utilities behave ("joined by commas"). -/
def joinWith (sep : Str) : List Str → Str
  | [] => []
  | [p] => p
  | p :: q :: rest => p ++ sep ++ joinWith sep (q :: rest)

/-- From SqlitePersistence.generateColumns applied to a key-value map: folds
over the keys, inserting a comma whenever the accumulated result is non-empty,
and appends each quoted key. -/
def generateColumns {V : Type} (row : List (Str × V)) : Str :=
  row.foldl
    (fun result kv =>
      (if result ≠ [] then result ++ [','] else result) ++ quoteIdS kv.1) []

/-- From SqlitePersistence.generateParameters applied to a key-value map: one
question-mark placeholder per key, comma-separated by the same accumulator
pattern. -/
def generateParameters {V : Type} (row : List (Str × V)) : Str :=
  row.foldl
    (fun result _ =>
      (if result ≠ [] then result ++ [','] else result) ++ ['?']) []

/-- From SqlitePersistence.generateSetParameters: one quoted-key=? term per
key, comma-separated by the same accumulator pattern. -/
def generateSetParameters {V : Type} (row : List (Str × V)) : Str :=
  row.foldl
    (fun result kv =>
      (if result ≠ [] then result ++ [','] else result)
        ++ (quoteIdS kv.1 ++ str "=?")) []

/-- From SqlitePersistence.generateValues: the values of the map, in key
order. -/
def generateValues {V : Type} (row : List (Str × V)) : List V :=
  row.map Prod.snd

/-- Connection parameters as the resolver reads them: getUri() and
getAsNullableString("database"), either of which may be null. -/
structure ConnectionParams where
  uri : Option Str
  database : Option Str
deriving DecidableEq

/-- The three ConfigException codes SqliteConnectionResolver can raise. -/
inductive ConfigError where
  | noConnection
  | wrongProtocol
  | noDatabase
deriving DecidableEq

/-- The config object composeConfig builds; only its database field is ever
assigned. -/
structure SqliteConfig where
  database : Option Str
deriving DecidableEq

/-- An error delivered by resolve: either an error from the external
connection/credential resolvers or a validation ConfigException. -/
inductive ResolveErr (ε : Type) where
  | external (e : ε)
  | config (e : ConfigError)
deriving DecidableEq

/-- From SqliteConnectionResolver.validateConnection: a non-null uri must
start with file://, and a connection without a uri must have a non-null
database parameter. -/
def validateConnection (c : ConnectionParams) : Option ConfigError :=
  match c.uri with
  | some u =>
    if (str "file://").isPrefixOf u then none else some ConfigError.wrongProtocol
  | none =>
    match c.database with
    | some _ => none
    | none => some ConfigError.noDatabase

/-- The loop body of validateConnections: the first validation error in
connection order. -/
def firstValidationError : List ConnectionParams → Option ConfigError
  | [] => none
  | c :: rest =>
    match validateConnection c with
    | some e => some e
    | none => firstValidationError rest

/-- From SqliteConnectionResolver.validateConnections: an empty connection
list is a NO_CONNECTION error, otherwise the first per-connection error. -/
def validateConnections (conns : List ConnectionParams) : Option ConfigError :=
  if conns.isEmpty then some ConfigError.noConnection
  else firstValidationError conns

/-- The loop body of composeConfig for one connection: the uri (when truthy,
i.e. non-empty) with file:// removed is written first, then the database
parameter overwrites it when that is truthy. -/
def composeStep (acc : Option Str) (c : ConnectionParams) : Option Str :=
  let acc1 :=
    match c.uri with
    | some u => if u ≠ [] then some (u.drop 7) else acc
    | none => acc
  match c.database with
  | some d => if d ≠ [] then some d else acc1
  | none => acc1

/-- From SqliteConnectionResolver.composeConfig: folds the per-connection
step over the connections in order, starting from an empty config. -/
def composeConfig (conns : List ConnectionParams) : SqliteConfig :=
  { database := conns.foldl composeStep none }

/-- From SqliteConnectionResolver.resolve: the external connection resolution
result and credential lookup result come in from the two parallel tasks; any
error is delivered with a null config, otherwise the composed config is
delivered. -/
def resolve {ε : Type} (connRes : Except ε (List ConnectionParams))
    (credRes : Except ε Unit) : Except (ResolveErr ε) SqliteConfig :=
  match connRes with
  | .error e => .error (.external e)
  | .ok conns =>
    match validateConnections conns with
    | some ce => .error (.config ce)
    | none =>
      match credRes with
      | .error e => .error (.external e)
      | .ok _ => .ok (composeConfig conns)

/-- The database field as claim C1 literally words it: taking the connections
in order, the explicit database parameter whenever it is present (set), else
the uri with its first 7 characters removed. Stated from the claim for
comparison against composeConfig. -/
def composeDatabaseClaim (conns : List ConnectionParams) : Option Str :=
  conns.foldl
    (fun acc c =>
      match c.database with
      | some d => some d
      | none =>
        match c.uri with
        | some u => some (u.drop 7)
        | none => acc)
    none

/-- What a single connection actually contributes to the database field in
composeConfig: its database parameter when non-empty, else its uri (when
non-empty) stripped of the first 7 characters, else nothing. -/
def connectionContribution (c : ConnectionParams) : Option Str :=
  match c.database with
  | some d =>
    if d ≠ [] then some d
    else
      match c.uri with
      | some u => if u ≠ [] then some (u.drop 7) else none
      | none => none
  | none =>
    match c.uri with
    | some u => if u ≠ [] then some (u.drop 7) else none
    | none => none

/-- A connection with a uri that does not start with file://. -/
def uriNotFileProtocol (c : ConnectionParams) : Bool :=
  match c.uri with
  | some u => !((str "file://").isPrefixOf u)
  | none => false

/-- A connection without a uri and without a database parameter. -/
def missingDatabase (c : ConnectionParams) : Bool :=
  match c.uri with
  | some _ => false
  | none => c.database.isNone

/-- A driver error as the persistence code inspects it: only its message
matters, and the message itself may be null. -/
structure DriverErr where
  message : Option Str
deriving DecidableEq

/-- String containment test, modelling String.prototype.indexOf(sub) >= 0. -/
def isSubstring (needle : Str) : Str → Bool
  | [] => needle.isEmpty
  | c :: rest => needle.isPrefixOf (c :: rest) || isSubstring needle rest

/-- True when an error message is non-null and contains the substring
"no such table", i.e. err.message.indexOf("no such table") is at least 0. -/
def noSuchTableMsg (m : Option Str) : Bool :=
  match m with
  | none => false
  | some s => isSubstring (str "no such table") s

/-- From the async.eachSeries over the schema statements in createSchema:
statements are executed in order and the first exec error stops the series
and becomes its result. Returns the statements handed to exec and the final
error. -/
def runSchemaSeries (stmts : List Str) (execRes : Str → Option DriverErr) :
    List Str × Option DriverErr :=
  match stmts with
  | [] => ([], none)
  | s :: rest =>
    match execRes s with
    | some e => ([s], some e)
    | none =>
      let r := runSchemaSeries rest execRes
      (s :: r.1, r.2)

/-- The probe query issued by createSchema to test whether the table
exists. -/
def schemaProbeQuery (table : Str) : Str :=
  str "SELECT * FROM " ++ quoteIdS table ++ str " LIMIT 1"

/-- From SqlitePersistence.createSchema: with no accumulated schema
statements the callback succeeds at once and nothing is issued; otherwise the
probe query runs first, a probe success skips all statements, a probe error
whose message contains "no such table" runs the statement series, and any
other probe error is reported unchanged with no statement executed. Returns
(probe queries issued, statements executed, callback error); the probe
outcome and the per-statement exec outcomes are inputs. -/
def createSchema (table : Str) (stmts : List Str) (probe : Option DriverErr)
    (execRes : Str → Option DriverErr) :
    List Str × List Str × Option DriverErr :=
  if stmts = [] then ([], [], none)
  else
    match probe with
    | none => ([schemaProbeQuery table], [], none)
    | some e =>
      if noSuchTableMsg e.message then
        let r := runSchemaSeries stmts execRes
        ([schemaProbeQuery table], r.1, r.2)
      else ([schemaProbeQuery table], [], some e)

/-- The error SqlitePersistence.open delivers when createSchema fails: a
ConnectionException CONNECT_FAILED wrapping the schema error as its cause. -/
inductive OpenSchemaErr where
  | connectFailed (cause : DriverErr)
deriving DecidableEq

/-- The createSchema continuation inside SqlitePersistence.open: a schema
error is wrapped in CONNECT_FAILED and the component stays closed; on success
the component is marked opened. Returns (probe queries issued, statements
executed, error delivered to open's callback, resulting opened flag). -/
def openSchemaPhase (table : Str) (stmts : List Str) (probe : Option DriverErr)
    (execRes : Str → Option DriverErr) :
    List Str × List Str × Option OpenSchemaErr × Bool :=
  let r := createSchema table stmts probe execRes
  match r.2.2 with
  | some e => (r.1, r.2.1, some (OpenSchemaErr.connectFailed e), false)
  | none => (r.1, r.2.1, none, true)

/-- The state of a SqliteConnection component: at most one driver connection
handle, plus the database file path it was opened with. -/
structure ConnState (H : Type) where
  connection : Option H
  databaseName : Option Str
deriving DecidableEq

/-- From SqliteConnection.isOpen: open iff the handle is non-null. -/
def ConnState.isOpen {H : Type} (s : ConnState H) : Bool :=
  s.connection.isSome

/-- From SqliteConnection.getConnection. -/
def ConnState.getConnection {H : Type} (s : ConnState H) : Option H :=
  s.connection

/-- From SqliteConnection.getDatabaseName. -/
def ConnState.getDatabaseName {H : Type} (s : ConnState H) : Option Str :=
  s.databaseName

/-- Errors reported by SqliteConnection.open and close: the resolver's own
error passed through, or a ConnectionException wrapping a driver error. -/
inductive ConnectionErr (ρ : Type) where
  | resolveFailed (e : ρ)
  | connectFailed (cause : DriverErr)
  | disconnectFailed (cause : DriverErr)
deriving DecidableEq

/-- From SqliteConnection.open: a resolver failure is passed to the callback
and leaves the state unchanged; a driver connect failure is wrapped in
CONNECT_FAILED and leaves the state unchanged; on success the handle is
stored and the database name is taken from the resolved config. -/
def openStep {H ρ : Type} (s : ConnState H)
    (resolveRes : Except ρ SqliteConfig)
    (driverRes : Except DriverErr H) :
    ConnState H × Option (ConnectionErr ρ) :=
  match resolveRes with
  | .error e => (s, some (ConnectionErr.resolveFailed e))
  | .ok config =>
    match driverRes with
    | .error e => (s, some (ConnectionErr.connectFailed e))
    | .ok db =>
      ({ connection := some db, databaseName := config.database }, none)

/-- From SqliteConnection.close: with no handle the callback succeeds at
once; otherwise the driver close runs, a driver error is wrapped in
DISCONNECT_FAILED, and the handle and database name are reset to null whether
or not the driver reported an error. -/
def closeStep {H ρ : Type} (s : ConnState H) (driverCloseErr : Option DriverErr) :
    ConnState H × Option (ConnectionErr ρ) :=
  match s.connection with
  | none => (s, none)
  | some _ =>
    ({ connection := none, databaseName := none },
      match driverCloseErr with
      | some e => some (ConnectionErr.disconnectFailed e)
      | none => none)

/-- From SqliteConnection.configure: configuration touches only the resolver
and options, never the handle or the database name. -/
def configureStep {H : Type} (s : ConnState H) : ConnState H := s

/-- A freshly constructed SqliteConnection holds no handle. -/
def initialConnState (H : Type) : ConnState H :=
  { connection := none, databaseName := none }

/-- One call in a configure/open/close call sequence, with the outcomes of
the external resolver and driver supplied as data. -/
inductive ConnEvent (H ρ : Type) where
  | configureEv
  | openEv (resolveRes : Except ρ SqliteConfig) (driverRes : Except DriverErr H)
  | closeEv (driverCloseErr : Option DriverErr)

/-- The state transition of a single configure/open/close call. -/
def connStep {H ρ : Type} (s : ConnState H) :
    ConnEvent H ρ → ConnState H × Option (ConnectionErr ρ)
  | ConnEvent.configureEv => (configureStep s, none)
  | ConnEvent.openEv r d => openStep s r d
  | ConnEvent.closeEv e => closeStep s e

/-- Runs a sequence of configure/open/close calls from a state. -/
def connRun {H ρ : Type} (s : ConnState H) : List (ConnEvent H ρ) → ConnState H
  | [] => s
  | e :: rest => connRun (connStep s e).1 rest

/-- PagingParams of the commons library as the persistence component uses
it: nullable skip and take plus the total flag. -/
structure PagingParams where
  skip : Option Int
  take : Option Int
  total : Bool
deriving DecidableEq

/-- PagingParams.getSkip: the stored skip clamped from below by minSkip. -/
def PagingParams.getSkip (p : PagingParams) (minSkip : Int) : Int :=
  match p.skip with
  | none => minSkip
  | some s => if s < minSkip then minSkip else s

/-- PagingParams.getTake: the stored take clamped to the range 0..maxTake,
defaulting to maxTake when null. -/
def PagingParams.getTake (p : PagingParams) (maxTake : Int) : Int :=
  match p.take with
  | none => maxTake
  | some t => if t < 0 then 0 else if t > maxTake then maxTake else t

/-- A freshly constructed PagingParams(): all nulls, total false. -/
def PagingParams.empty : PagingParams :=
  { skip := none, take := none, total := false }

/-- The default options.max_page_size of SqlitePersistence (the default
config and the initial _maxPageSize field are both 100). -/
def defaultMaxPageSize : Int := 100

/-- From SqlitePersistence.configure: a configured options.max_page_size
replaces the default. -/
def configureMaxPageSize (opt : Option Int) : Int :=
  match opt with
  | some v => v
  | none => defaultMaxPageSize

/-- Decimal rendering of an integer appended into a query string. -/
def intStr (i : Int) : Str := (toString i).data

/-- The projection part of a SELECT: the select argument when truthy and
non-empty, else the star. -/
def selectClause (sel : Option Str) : Str :=
  match sel with
  | some s => if s ≠ [] then s else str "*"
  | none => str "*"

/-- The WHERE part of the filter-driven queries: appended exactly when the
filter is non-null and non-empty. -/
def whereClause (filter : Option Str) : Str :=
  match filter with
  | some f => if f ≠ [] then str " WHERE " ++ f else []
  | none => []

/-- The ORDER BY part: appended exactly when sort is truthy and non-empty. -/
def orderClause (sort : Option Str) : Str :=
  match sort with
  | some s => if s ≠ [] then str " ORDER BY " ++ s else []
  | none => []

/-- From SqlitePersistence.getPageByFilter: the page query, with LIMIT always
appended from paging.getTake(maxPageSize) and OFFSET appended exactly when
paging.getSkip(-1) is non-negative; a null paging argument acts as a fresh
PagingParams. -/
def getPageQuery (table : Str) (filter sort sel : Option Str)
    (paging : Option PagingParams) (maxPageSize : Int) : Str :=
  let p := paging.getD PagingParams.empty
  let skip := p.getSkip (-1)
  let take := p.getTake maxPageSize
  str "SELECT " ++ selectClause sel ++ str " FROM " ++ quoteIdS table
    ++ whereClause filter ++ orderClause sort
    ++ str " LIMIT " ++ intStr take
    ++ (if skip ≥ 0 then str " OFFSET " ++ intStr skip else [])

/-- The COUNT query issued by getPageByFilter and getCountByFilter, with the
same WHERE clause as the main query. -/
def countQuery (table : Str) (filter : Option Str) : Str :=
  str "SELECT COUNT(*) AS count FROM " ++ quoteIdS table ++ whereClause filter

/-- DataPage of the commons library: the items plus an optional total. -/
structure DataPage (α : Type) where
  data : List α
  total : Option Int
deriving DecidableEq

/-- Driver responses for page retrieval: client.all may deliver an error or a
nullable row list; client.get on the count query may deliver an error or a
nullable row whose count field is read. -/
structure PageDb (Row : Type) where
  allRes : Str → Except DriverErr (Option (List Row))
  countRes : Str → Except DriverErr (Option Int)

/-- From SqlitePersistence.getPageByFilter: issues the page query; on success
converts the rows to public format (a null row list maps to an empty list);
when paging.total is set it additionally issues the count query with the same
filter and delivers the page with that count (a null count row counts as 0),
otherwise it delivers the page without a total. Returns the issued queries in
order together with the callback outcome. -/
def getPageByFilter {Row Pub : Type} (db : PageDb Row) (table : Str)
    (filter sort sel : Option Str) (paging : Option PagingParams)
    (maxPageSize : Int) (convert : Row → Pub) :
    List Str × Except DriverErr (DataPage Pub) :=
  let p := paging.getD PagingParams.empty
  let q := getPageQuery table filter sort sel paging maxPageSize
  match db.allRes q with
  | .error e => ([q], .error e)
  | .ok rows =>
    let items := (rows.getD []).map convert
    if p.total then
      let cq := countQuery table filter
      match db.countRes cq with
      | .error e => ([q, cq], .error e)
      | .ok cnt => ([q, cq], .ok { data := items, total := some (cnt.getD 0) })
    else ([q], .ok { data := items, total := none })

/-- From SqlitePersistence.getListByFilter: the list query with the same
select, filter and sort handling as the page query, but no LIMIT/OFFSET. -/
def getListQuery (table : Str) (filter sort sel : Option Str) : Str :=
  str "SELECT " ++ selectClause sel ++ str " FROM " ++ quoteIdS table
    ++ whereClause filter ++ orderClause sort

/-- From SqlitePersistence.deleteByFilter: DELETE with the WHERE clause
appended exactly when the filter is non-null and non-empty. -/
def deleteByFilterQuery (table : Str) (filter : Option Str) : Str :=
  str "DELETE FROM " ++ quoteIdS table ++ whereClause filter

/-- One SQL call issued to the driver connection handle. -/
inductive DbEvent (V : Type) where
  | runStmt (sql : Str) (params : List V)
  | getStmt (sql : Str) (params : List V)
deriving DecidableEq

/-- A callback-sequenced driver program: a continuation only runs once the
previous driver call has completed, exactly as in the nested callbacks the
source places under client.serialize on the single connection handle. -/
inductive DbProg (V Row α : Type) where
  | done (a : α)
  | runStmt (sql : Str) (params : List V)
      (k : Option DriverErr → DbProg V Row α)
  | getStmt (sql : Str) (params : List V)
      (k : Option DriverErr → Option Row → DbProg V Row α)

/-- The driver's responses to run and get calls. -/
structure Driver (V Row : Type) where
  runRes : Str → List V → Option DriverErr
  getRes : Str → List V → Option DriverErr × Option Row

/-- Executes a driver program against a driver, recording the issued SQL
calls in order. -/
def DbProg.exec {V Row α : Type} (d : Driver V Row) :
    DbProg V Row α → List (DbEvent V) × α
  | DbProg.done a => ([], a)
  | DbProg.runStmt sql ps k =>
    let r := (k (d.runRes sql ps)).exec d
    (DbEvent.runStmt sql ps :: r.1, r.2)
  | DbProg.getStmt sql ps k =>
    let g := d.getRes sql ps
    let r := (k g.1 g.2).exec d
    (DbEvent.getStmt sql ps :: r.1, r.2)

/-- An identifiable data item: its id property, plus the rest of its
properties as a key-value row. -/
structure Item (V : Type) where
  id : Option V
  row : List (Str × V)
deriving DecidableEq

/-- The INSERT ... ON CONFLICT(id) DO UPDATE SET query built by set. -/
def setQuery {V : Type} (table : Str) (row : List (Str × V)) : Str :=
  str "INSERT INTO " ++ quoteIdS table ++ str " (" ++ generateColumns row
    ++ str ") VALUES (" ++ generateParameters row ++ str ")"
    ++ str " ON CONFLICT(id) DO UPDATE SET " ++ generateSetParameters row

/-- The SELECT-by-id query used by getOneById, set, update, updatePartially
and deleteById. -/
def selectByIdQuery (table : Str) : Str :=
  str "SELECT * FROM " ++ quoteIdS table ++ str " WHERE id=?"

/-- The UPDATE ... WHERE id=? query built by update and updatePartially. -/
def updateQuery {V : Type} (table : Str) (row : List (Str × V)) : Str :=
  str "UPDATE " ++ quoteIdS table ++ str " SET " ++ generateSetParameters row
    ++ str " WHERE id=?"

/-- The DELETE ... WHERE id=? query built by deleteById. -/
def deleteByIdQuery (table : Str) : Str :=
  str "DELETE FROM " ++ quoteIdS table ++ str " WHERE id=?"

/-- The INSERT query built by SqlitePersistence.create. -/
def insertQuery {V : Type} (table : Str) (row : List (Str × V)) : Str :=
  str "INSERT INTO " ++ quoteIdS table ++ str " (" ++ generateColumns row
    ++ str ") VALUES (" ++ generateParameters row ++ str ")"

/-- The SQL phase of IdentifiableSqlitePersistence.set after the null check
and id assignment: the upsert runs first with the values doubled, and the
read-back SELECT is issued only from inside its completion callback; the
callback receives the selected row converted to public format, or null. -/
def setProg {V Row Pub : Type} (table : Str) (row : List (Str × V)) (idv : V)
    (convert : Row → Pub) : DbProg V Row (Option DriverErr × Option Pub) :=
  DbProg.runStmt (setQuery table row) (generateValues row ++ generateValues row)
    (fun _ =>
      DbProg.getStmt (selectByIdQuery table) [idv]
        (fun err res => DbProg.done (err, res.map convert)))

/-- The SQL phase of update and updatePartially: the UPDATE runs first and
the read-back SELECT is issued only from inside its completion callback. -/
def updateProg {V Row Pub : Type} (table : Str) (row : List (Str × V)) (idv : V)
    (convert : Row → Pub) : DbProg V Row (Option DriverErr × Option Pub) :=
  DbProg.runStmt (updateQuery table row) (generateValues row ++ [idv])
    (fun _ =>
      DbProg.getStmt (selectByIdQuery table) [idv]
        (fun err res => DbProg.done (err, res.map convert)))

/-- From IdentifiableSqlitePersistence.deleteById: the SELECT by id is issued
first; when it finds no row the callback fires at once with null and the
DELETE is skipped entirely; otherwise the DELETE runs and the callback
receives the previously selected row converted to public format. -/
def deleteByIdProg {V Row Pub : Type} (table : Str) (idv : V)
    (convert : Row → Pub) : DbProg V Row (Option DriverErr × Option Pub) :=
  DbProg.getStmt (selectByIdQuery table) [idv]
    (fun err res =>
      match res with
      | none => DbProg.done (err, none)
      | some r =>
        DbProg.runStmt (deleteByIdQuery table) [idv]
          (fun derr => DbProg.done (derr, some (convert r))))

/-- From IdentifiableSqlitePersistence.set, including the null-item check and
the id assignment (genId stands for IdGenerator.nextLong). -/
def set {V Row Pub : Type} (table : Str) (genId : V)
    (convertFrom : Item V → List (Str × V)) (convert : Row → Pub) :
    Option (Item V) → DbProg V Row (Option DriverErr × Option Pub)
  | none => DbProg.done (none, none)
  | some item0 =>
    let item :=
      match item0.id with
      | some _ => item0
      | none => { item0 with id := some genId }
    setProg table (convertFrom item) (item.id.getD genId) convert

/-- From IdentifiableSqlitePersistence.update, including the null checks on
the item and its id. -/
def update {V Row Pub : Type} (table : Str)
    (convertFrom : Item V → List (Str × V)) (convert : Row → Pub) :
    Option (Item V) → DbProg V Row (Option DriverErr × Option Pub)
  | none => DbProg.done (none, none)
  | some item =>
    match item.id with
    | none => DbProg.done (none, none)
    | some idv => updateProg table (convertFrom item) idv convert

/-- From IdentifiableSqlitePersistence.updatePartially, including the null
checks on the id and the data map. -/
def updatePartially {V Row Pub ρ : Type} (table : Str)
    (convertPartial : ρ → List (Str × V)) (convert : Row → Pub)
    (idv : Option V) (data : Option ρ) :
    DbProg V Row (Option DriverErr × Option Pub) :=
  match idv, data with
  | some i, some dt => updateProg table (convertPartial dt) i convert
  | _, _ => DbProg.done (none, none)

/-- From SqlitePersistence.create: the INSERT runs, and the callback receives
the input item itself, never a row read back from the database. -/
def superCreate {V Row : Type} (table : Str)
    (convertFrom : Item V → List (Str × V)) :
    Option (Item V) → DbProg V Row (Option DriverErr × Option (Item V))
  | none => DbProg.done (none, none)
  | some item =>
    let row := convertFrom item
    DbProg.runStmt (insertQuery table row) (generateValues row)
      (fun err => DbProg.done (err, some item))

/-- From IdentifiableSqlitePersistence.create: null items short-circuit; an
item without an id is replaced by a clone carrying the generated id; then the
base create runs on it. -/
def create {V Row : Type} (table : Str) (genId : V)
    (convertFrom : Item V → List (Str × V)) :
    Option (Item V) → DbProg V Row (Option DriverErr × Option (Item V))
  | none => DbProg.done (none, none)
  | some item0 =>
    let newItem :=
      match item0.id with
      | some _ => item0
      | none => { item0 with id := some genId }
    superCreate table convertFrom (some newItem)

/-- A small heap of JS objects, to express cloning versus mutation:
references are list indices and _.clone allocates a fresh object. -/
structure Heap (V : Type) where
  objs : List (Item V)

/-- Dereferences an object. -/
def Heap.get {V : Type} (h : Heap V) (r : Nat) : Option (Item V) :=
  h.objs[r]?

/-- Allocates a fresh object and returns its reference. -/
def Heap.alloc {V : Type} (h : Heap V) (it : Item V) : Heap V × Nat :=
  ({ objs := h.objs ++ [it] }, h.objs.length)

/-- The id-assignment phase of IdentifiableSqlitePersistence.create on the
heap: an item whose id is null is cloned and the clone's id is set to the
generated id; an item with an id passes through untouched. The caller's
object is never written. Returns the heap and the reference handed to the
base create. -/
def createAssignId {V : Type} (h : Heap V) (itemRef : Nat) (genId : V) :
    Heap V × Nat :=
  match h.get itemRef with
  | none => (h, itemRef)
  | some it =>
    match it.id with
    | some _ => (h, itemRef)
    | none =>
      let r := h.alloc { it with id := some genId }
      (r.1, r.2)

end SqliteNode

namespace SqliteNode

theorem joinWith_cons_cons (sep p q : Str) (l : List Str) :
    joinWith sep (p :: q :: l) = p ++ sep ++ joinWith sep (q :: l) := rfl

theorem joinWith_glue (sep p q : Str) (l : List Str) :
    joinWith sep ((p ++ sep ++ q) :: l) = p ++ sep ++ joinWith sep (q :: l) := by
  cases l with
  | nil => simp [joinWith]
  | cons r rest => simp [joinWith_cons_cons, List.append_assoc]

/-- The accumulator pattern of the generators equals comma-joining, as long as
the accumulator starts non-empty. -/
theorem foldl_comma_eq_joinWith {α : Type} (f : α → Str) :
    ∀ (l : List α) (acc : Str), acc ≠ [] →
      l.foldl (fun result a =>
        (if result ≠ [] then result ++ [','] else result) ++ f a) acc
      = joinWith [','] (acc :: l.map f) := by
  intro l
  induction l with
  | nil => intro acc _; simp [joinWith]
  | cons a rest ih =>
    intro acc hacc
    have hstep :
        (if acc ≠ [] then acc ++ [','] else acc) ++ f a = acc ++ [','] ++ f a := by
      simp [hacc]
    simp only [List.foldl_cons, hstep, List.map_cons]
    rw [ih (acc ++ [','] ++ f a) (by simp)]
    rw [joinWith_glue, joinWith_cons_cons]

theorem generateColumns_eq_joinWith {V : Type} (row : List (Str × V))
    (h : ∀ kv ∈ row, kv.1 ≠ []) :
    generateColumns row = joinWith [','] (row.map fun kv => quoteIdS kv.1) := by
  cases row with
  | nil => rfl
  | cons kv rest =>
    have hk : kv.1 ≠ [] := h kv (by simp)
    have hq : quoteIdS kv.1 ≠ [] := by
      cases hv : kv.1 with
      | nil => exact absurd hv hk
      | cons c cs =>
        simp only [quoteIdS]
        split <;> simp
    simp only [generateColumns, List.foldl_cons, List.map_cons]
    have hbase :
        ((if ([] : Str) ≠ [] then ([] : Str) ++ [','] else []) ++ quoteIdS kv.1)
          = quoteIdS kv.1 := by simp
    rw [hbase]
    exact foldl_comma_eq_joinWith _ rest (quoteIdS kv.1) hq

theorem generateParameters_eq_joinWith {V : Type} (row : List (Str × V)) :
    generateParameters row = joinWith [','] (row.map fun _ => ['?']) := by
  cases row with
  | nil => rfl
  | cons kv rest =>
    simp only [generateParameters, List.foldl_cons, List.map_cons]
    have hbase :
        ((if ([] : Str) ≠ [] then ([] : Str) ++ [','] else []) ++ ['?'])
          = ['?'] := by simp
    rw [hbase]
    exact foldl_comma_eq_joinWith _ rest ['?'] (by simp)

theorem generateSetParameters_eq_joinWith {V : Type} (row : List (Str × V)) :
    generateSetParameters row
      = joinWith [','] (row.map fun kv => quoteIdS kv.1 ++ str "=?") := by
  cases row with
  | nil => rfl
  | cons kv rest =>
    simp only [generateSetParameters, List.foldl_cons, List.map_cons]
    have hbase :
        ((if ([] : Str) ≠ [] then ([] : Str) ++ [','] else [])
          ++ (quoteIdS kv.1 ++ str "=?")) = quoteIdS kv.1 ++ str "=?" := by simp
    rw [hbase]
    refine foldl_comma_eq_joinWith _ rest _ ?_
    cases hv : kv.1 <;> simp [quoteIdS, str]

/-- Claim C10: quoteIdentifier is idempotent; null and the empty string are
returned unchanged; any string whose first character is a double quote is
returned as-is; every other string is returned wrapped in a leading and
trailing double-quote character. -/
theorem claim_C10_quoteIdentifier_idempotent :
    (∀ v, quoteIdentifier (quoteIdentifier v) = quoteIdentifier v) ∧
    quoteIdentifier none = none ∧
    quoteIdentifier (some []) = some [] ∧
    (∀ c cs, c = '"' → quoteIdentifier (some (c :: cs)) = some (c :: cs)) ∧
    (∀ c cs, c ≠ '"' →
      quoteIdentifier (some (c :: cs)) = some ('"' :: (c :: cs) ++ ['"'])) := by
  refine ⟨?_, rfl, rfl, ?_, ?_⟩
  · intro v
    match v with
    | none => rfl
    | some [] => rfl
    | some (c :: cs) =>
      by_cases hc : c = '"'
      · simp [quoteIdentifier, hc]
      · simp [quoteIdentifier, hc]
  · intro c cs hc
    simp [quoteIdentifier, hc]
  · intro c cs hc
    simp [quoteIdentifier, hc]

/-- Witness for C10 at concrete strings. -/
theorem claim_C10_witness :
    quoteIdentifier (quoteIdentifier (some (str "ab")))
        = quoteIdentifier (some (str "ab")) ∧
    quoteIdentifier (some ('"' :: str "x")) = some ('"' :: str "x") ∧
    quoteIdentifier (some ('a' :: str "b"))
        = some ('"' :: ('a' :: str "b") ++ ['"']) :=
  ⟨claim_C10_quoteIdentifier_idempotent.1 (some (str "ab")),
   claim_C10_quoteIdentifier_idempotent.2.2.2.1 '"' (str "x") rfl,
   claim_C10_quoteIdentifier_idempotent.2.2.2.2 'a' (str "b") (by decide)⟩

/-- Counterexample to C4 as stated: on the row map with keys "" and "b" the
generated column list is not the quoted keys joined by commas, because the
empty quoted key leaves the accumulator empty and the comma is skipped. -/
theorem claim_C4_counterexample :
    generateColumns [((str ""), (0 : Nat)), ((str "b"), 1)]
      ≠ joinWith [',']
          ([((str ""), (0 : Nat)), ((str "b"), 1)].map fun kv => quoteIdS kv.1) := by
  decide

/-- Claim C4 (amended: all keys non-empty): for a key-value row map with n
non-empty keys, generateColumns is the n quoted keys joined by commas,
generateParameters is n question-mark placeholders joined by commas,
generateSetParameters is the n quoted-key=? terms joined by commas, and
generateValues is the n values; all four are maps over the same key list, so
corresponding indices refer to the same key. -/
theorem claim_C4_generators {V : Type} (row : List (Str × V))
    (h : ∀ kv ∈ row, kv.1 ≠ []) :
    generateColumns row = joinWith [','] (row.map fun kv => quoteIdS kv.1) ∧
    generateParameters row = joinWith [','] (row.map fun _ => ['?']) ∧
    generateSetParameters row
      = joinWith [','] (row.map fun kv => quoteIdS kv.1 ++ str "=?") ∧
    generateValues row = row.map Prod.snd ∧
    (row.map fun kv => quoteIdS kv.1).length = row.length ∧
    (row.map fun _ => (['?'] : Str)).length = row.length ∧
    (generateValues row).length = row.length := by
  refine ⟨generateColumns_eq_joinWith row h, generateParameters_eq_joinWith row,
    generateSetParameters_eq_joinWith row, rfl, ?_, ?_, ?_⟩
  · simp
  · simp
  · simp [generateValues]

/-- Witness for C4 at a concrete two-key row. -/
theorem claim_C4_witness :
    generateColumns [((str "id"), (1 : Nat)), ((str "b"), 2)]
      = joinWith [',']
          ([((str "id"), (1 : Nat)), ((str "b"), 2)].map fun kv => quoteIdS kv.1) :=
  (claim_C4_generators [((str "id"), (1 : Nat)), ((str "b"), 2)]
    (by decide)).1

theorem validateConnection_eq_none_iff (c : ConnectionParams) :
    validateConnection c = none ↔
      uriNotFileProtocol c = false ∧ missingDatabase c = false := by
  rcases c with ⟨uri, db⟩
  cases uri with
  | none =>
    cases db <;> simp [validateConnection, uriNotFileProtocol, missingDatabase]
  | some u =>
    by_cases hp : (str "file://").isPrefixOf u <;>
      simp [validateConnection, uriNotFileProtocol, missingDatabase, hp]

theorem firstValidationError_eq_none_iff :
    ∀ conns : List ConnectionParams,
      firstValidationError conns = none ↔ ∀ c ∈ conns, validateConnection c = none := by
  intro conns
  induction conns with
  | nil => simp [firstValidationError]
  | cons c rest ih =>
    cases hv : validateConnection c <;>
      simp [firstValidationError, hv, ih]

theorem validateConnections_some_iff (conns : List ConnectionParams) :
    (∃ e, validateConnections conns = some e) ↔
      conns = [] ∨
        ∃ c ∈ conns, uriNotFileProtocol c = true ∨ missingDatabase c = true := by
  by_cases hc : conns = []
  · subst hc
    simp [validateConnections]
  · have hne : conns.isEmpty = false := by
      cases conns with
      | nil => exact absurd rfl hc
      | cons a l => rfl
    simp only [validateConnections, hne, Bool.false_eq_true, if_false, hc,
      false_or]
    constructor
    · rintro ⟨e, he⟩
      by_contra hall
      push_neg at hall
      have : ∀ c ∈ conns, validateConnection c = none := by
        intro c hcmem
        rcases hall with hall
        have h1 := hall c hcmem
        rw [validateConnection_eq_none_iff]
        constructor
        · cases hb : uriNotFileProtocol c with
          | false => rfl
          | true => exact absurd hb h1.1
        · cases hb : missingDatabase c with
          | false => rfl
          | true => exact absurd hb h1.2
      rw [(firstValidationError_eq_none_iff conns).mpr this] at he
      exact Option.noConfusion he
    · rintro ⟨c, hcmem, hbad⟩
      cases hfv : firstValidationError conns with
      | some e => exact ⟨e, rfl⟩
      | none =>
        have := (firstValidationError_eq_none_iff conns).mp hfv c hcmem
        rw [validateConnection_eq_none_iff] at this
        rcases hbad with hbad | hbad
        · rw [this.1] at hbad; exact Bool.noConfusion hbad
        · rw [this.2] at hbad; exact Bool.noConfusion hbad

theorem composeStep_eq_or (acc : Option Str) (c : ConnectionParams) :
    composeStep acc c = (connectionContribution c).or acc := by
  rcases c with ⟨uri, db⟩
  cases db with
  | none =>
    cases uri with
    | none => simp [composeStep, connectionContribution]
    | some u =>
      by_cases hu : u = [] <;>
        simp [composeStep, connectionContribution, hu]
  | some d =>
    by_cases hd : d = []
    · cases uri with
      | none => simp [composeStep, connectionContribution, hd]
      | some u =>
        by_cases hu : u = [] <;>
          simp [composeStep, connectionContribution, hd, hu]
    · cases uri with
      | none => simp [composeStep, connectionContribution, hd]
      | some u =>
        by_cases hu : u = [] <;>
          simp [composeStep, connectionContribution, hd, hu]

theorem findSomeAppend {α β : Type} (g : α → Option β) :
    ∀ l₁ l₂ : List α,
      (l₁ ++ l₂).findSome? g = (l₁.findSome? g).or (l₂.findSome? g) := by
  intro l₁
  induction l₁ with
  | nil => intro l₂; simp
  | cons a rest ih =>
    intro l₂
    cases hg : g a <;>
      simp [List.findSome?_cons, hg, ih]

theorem foldl_or_eq_findSome {α β : Type} (g : α → Option β) :
    ∀ (l : List α) (acc : Option β),
      l.foldl (fun a c => (g c).or a) acc = (l.reverse.findSome? g).or acc := by
  intro l
  induction l with
  | nil => intro acc; simp
  | cons c rest ih =>
    intro acc
    simp only [List.foldl_cons, List.reverse_cons]
    rw [ih, findSomeAppend]
    cases hrest : rest.reverse.findSome? g <;>
      cases hg : g c <;>
        simp [List.findSome?_cons, hg]

theorem composeConfig_database_eq (conns : List ConnectionParams) :
    (composeConfig conns).database
      = conns.reverse.findSome? connectionContribution := by
  have hfold :
      conns.foldl composeStep none
        = conns.foldl (fun a c => (connectionContribution c).or a) none := by
    induction conns with
    | nil => rfl
    | cons c rest ih =>
      simp only [List.foldl_cons, composeStep_eq_or]
      have : ∀ (l : List ConnectionParams) (a b : Option Str), a = b →
          l.foldl composeStep a = l.foldl (fun a c => (connectionContribution c).or a) b := by
        intro l
        induction l with
        | nil => intro a b hab; simpa using hab
        | cons x xs ihx =>
          intro a b hab
          simp only [List.foldl_cons]
          exact ihx _ _ (by rw [composeStep_eq_or, hab])
      exact this rest _ _ rfl
  simp only [composeConfig, hfold]
  rw [foldl_or_eq_findSome]
  cases conns.reverse.findSome? connectionContribution <;> simp

/-- Counterexample to C1 as stated: a single connection without a uri whose
database parameter is set to the empty string passes validation, so resolve
succeeds, but composeConfig skips the falsy empty string and delivers a
config with no database field, while the claim's wording makes the database
field the (present) empty database parameter. -/
theorem claim_C1_counterexample :
    resolve
        (Except.ok [{ uri := none, database := some [] }] :
          Except Unit (List ConnectionParams))
        (Except.ok ())
      = Except.ok { database := none } ∧
    composeDatabaseClaim [{ uri := none, database := some [] }] = some [] ∧
    ({ database := none } : SqliteConfig)
      ≠ { database := composeDatabaseClaim [{ uri := none, database := some [] }] } := by
  refine ⟨rfl, rfl, by decide⟩

/-- Claim C1 (amended: a database parameter or uri only contributes to the
composed config when non-empty): resolve delivers an error iff external
resolution of connections or credentials fails, no connection is configured,
some connection has a uri not starting with file://, or some connection
without a uri has no database parameter set; otherwise the delivered config's
database field is the latest contribution in connection order, where a
connection contributes its non-empty database parameter, else its non-empty
uri with the first 7 characters (file://) removed. -/
theorem claim_C1_resolve {ε : Type} (connRes : Except ε (List ConnectionParams))
    (credRes : Except ε Unit) :
    ((∃ e, resolve connRes credRes = Except.error e) ↔
      ((∃ e, connRes = Except.error e) ∨ (∃ e, credRes = Except.error e) ∨
        (∃ conns, connRes = Except.ok conns ∧
          (conns = [] ∨
            ∃ c ∈ conns, uriNotFileProtocol c = true ∨ missingDatabase c = true)))) ∧
    (∀ conns cfg, connRes = Except.ok conns →
      resolve connRes credRes = Except.ok cfg →
        cfg.database = conns.reverse.findSome? connectionContribution) := by
  constructor
  · cases connRes with
    | error e =>
      simp only [resolve]
      constructor
      · intro _; exact Or.inl ⟨e, rfl⟩
      · intro _; exact ⟨ResolveErr.external e, rfl⟩
    | ok conns =>
      cases hv : validateConnections conns with
      | some ce =>
        simp only [resolve, hv]
        constructor
        · intro _
          exact Or.inr (Or.inr ⟨conns, rfl,
            ((validateConnections_some_iff conns).mp ⟨ce, hv⟩)⟩)
        · intro _; exact ⟨ResolveErr.config ce, rfl⟩
      | none =>
        cases credRes with
        | error e =>
          simp only [resolve, hv]
          constructor
          · intro _; exact Or.inr (Or.inl ⟨e, rfl⟩)
          · intro _; exact ⟨ResolveErr.external e, rfl⟩
        | ok u =>
          simp only [resolve, hv]
          constructor
          · rintro ⟨e, he⟩
            exact Except.noConfusion he
          · rintro (⟨e, he⟩ | ⟨e, he⟩ | ⟨conns2, hc2, hbad⟩)
            · exact Except.noConfusion he
            · exact Except.noConfusion he
            · have hcc : conns2 = conns := by
                injection hc2 with h
                exact h.symm
              subst hcc
              rcases (validateConnections_some_iff conns2).mpr hbad with ⟨e2, he2⟩
              rw [hv] at he2
              exact Option.noConfusion he2
  · intro conns cfg hconn hres
    subst hconn
    cases hv : validateConnections conns with
    | some ce =>
      simp only [resolve, hv] at hres
      exact Except.noConfusion hres
    | none =>
      cases credRes with
      | error e =>
        simp only [resolve, hv] at hres
        exact Except.noConfusion hres
      | ok u =>
        simp only [resolve, hv] at hres
        injection hres with h
        rw [← h]
        exact composeConfig_database_eq conns

/-- Witness for C1 at the repository test's uri-only configuration. -/
theorem claim_C1_witness :
    ({ database := some (str "./data/test.db") } : SqliteConfig).database
      = ([({ uri := some (str "file://./data/test.db"), database := none } :
            ConnectionParams)]).reverse.findSome? connectionContribution :=
  (claim_C1_resolve
      (Except.ok [{ uri := some (str "file://./data/test.db"), database := none }] :
        Except Unit (List ConnectionParams))
      (Except.ok ())).2
    [{ uri := some (str "file://./data/test.db"), database := none }]
    { database := some (str "./data/test.db") } rfl rfl

theorem runSchemaSeries_all_ok (execRes : Str → Option DriverErr) :
    ∀ stmts : List Str, (∀ s ∈ stmts, execRes s = none) →
      runSchemaSeries stmts execRes = (stmts, none) := by
  intro stmts
  induction stmts with
  | nil => intro _; rfl
  | cons s rest ih =>
    intro h
    have hs : execRes s = none := h s (by simp)
    have hr := ih (fun x hx => h x (by simp [hx]))
    simp [runSchemaSeries, hs, hr]

theorem runSchemaSeries_ne_nil (execRes : Str → Option DriverErr)
    (s : Str) (rest : List Str) :
    (runSchemaSeries (s :: rest) execRes).1 ≠ [] := by
  cases he : execRes s <;> simp [runSchemaSeries, he]

/-- Claim C2: during open, schema statements begin executing iff there are
accumulated statements and the probe query on the table failed with an error
whose message contains "no such table"; a successful probe executes nothing
and open succeeds; a probe error of any other kind executes nothing and makes
open fail, delivering that error wrapped as the cause of a CONNECT_FAILED
connection exception; and when the probe reports "no such table" and every
exec succeeds, exactly the accumulated statements are executed. The probe
query, when issued, is SELECT * FROM the quoted table LIMIT 1. -/
theorem claim_C2_createSchema (table : Str) (stmts : List Str)
    (probe : Option DriverErr) (execRes : Str → Option DriverErr) :
    (((openSchemaPhase table stmts probe execRes).2.1 ≠ []) ↔
      (stmts ≠ [] ∧ ∃ e, probe = some e ∧ noSuchTableMsg e.message = true)) ∧
    ((openSchemaPhase table stmts probe execRes).1
      = if stmts = [] then [] else [schemaProbeQuery table]) ∧
    (probe = none →
      (openSchemaPhase table stmts probe execRes).2.1 = [] ∧
      (openSchemaPhase table stmts probe execRes).2.2.1 = none ∧
      (openSchemaPhase table stmts probe execRes).2.2.2 = true) ∧
    (∀ e, stmts ≠ [] → probe = some e → noSuchTableMsg e.message = false →
      (openSchemaPhase table stmts probe execRes).2.1 = [] ∧
      (openSchemaPhase table stmts probe execRes).2.2.1
          = some (OpenSchemaErr.connectFailed e) ∧
      (openSchemaPhase table stmts probe execRes).2.2.2 = false) ∧
    (∀ e, probe = some e → noSuchTableMsg e.message = true →
      (∀ s ∈ stmts, execRes s = none) →
      (openSchemaPhase table stmts probe execRes).2.1 = stmts) := by
  by_cases hst : stmts = []
  · subst hst
    refine ⟨by simp [openSchemaPhase, createSchema], ?_, ?_, ?_, ?_⟩
    · simp [openSchemaPhase, createSchema]
    · intro _; simp [openSchemaPhase, createSchema]
    · intro e he _ _; exact absurd rfl he
    · intro e _ _ _; simp [openSchemaPhase, createSchema]
  · cases probe with
    | none =>
      refine ⟨?_, ?_, ?_, ?_, ?_⟩
      · simp [openSchemaPhase, createSchema, hst]
      · simp [openSchemaPhase, createSchema, hst]
      · intro _; simp [openSchemaPhase, createSchema, hst]
      · intro e _ he _; exact Option.noConfusion he
      · intro e he _ _; exact Option.noConfusion he
    | some e =>
      by_cases hmsg : noSuchTableMsg e.message = true
      · cases stmts with
        | nil => exact absurd rfl hst
        | cons s rest =>
          refine ⟨?_, ?_, ?_, ?_, ?_⟩
          · constructor
            · intro _
              exact ⟨by simp, e, rfl, hmsg⟩
            · intro _
              have hne := runSchemaSeries_ne_nil execRes s rest
              simp only [openSchemaPhase, createSchema, hmsg, if_true]
              simp only [if_neg hst]
              cases hr : (runSchemaSeries (s :: rest) execRes).2 <;>
                simp_all [openSchemaPhase, createSchema, hmsg]
          · simp only [openSchemaPhase, createSchema, hst, hmsg, if_true,
              if_neg hst]
            cases hr : (runSchemaSeries (s :: rest) execRes).2 <;> simp [hr]
          · intro he; exact Option.noConfusion he
          · intro e2 _ he2 hm2
            injection he2 with he2
            rw [← he2] at hm2
            rw [hmsg] at hm2
            exact Bool.noConfusion hm2
          · intro e2 he2 _ hall
            have hrun := runSchemaSeries_all_ok execRes (s :: rest) hall
            simp [openSchemaPhase, createSchema, hst, hmsg, hrun]
      · have hmsg2 : noSuchTableMsg e.message = false := by
          cases hb : noSuchTableMsg e.message with
          | false => rfl
          | true => exact absurd hb hmsg
        refine ⟨?_, ?_, ?_, ?_, ?_⟩
        · constructor
          · intro hx
            exact absurd (by simp [openSchemaPhase, createSchema, hst, hmsg2]) hx
          · rintro ⟨_, e2, he2, hm2⟩
            injection he2 with he2
            rw [← he2] at hm2
            rw [hmsg2] at hm2
            exact Bool.noConfusion hm2
        · simp [openSchemaPhase, createSchema, hst, hmsg2]
        · intro he; exact Option.noConfusion he
        · intro e2 _ he2 _
          injection he2 with he2
          subst he2
          simp [openSchemaPhase, createSchema, hst, hmsg2]
        · intro e2 he2 hm2 _
          injection he2 with he2
          rw [← he2] at hm2
          rw [hmsg2] at hm2
          exact Bool.noConfusion hm2

/-- Witness for C2: a concrete no-such-table probe error makes open run the
single accumulated statement. -/
theorem claim_C2_witness :
    (openSchemaPhase (str "dummies") [str "CREATE TABLE dummies (id TEXT)"]
        (some { message := some (str "SQLITE_ERROR: no such table: dummies") })
        (fun _ => none)).2.1
      = [str "CREATE TABLE dummies (id TEXT)"] :=
  (claim_C2_createSchema (str "dummies") [str "CREATE TABLE dummies (id TEXT)"]
      (some { message := some (str "SQLITE_ERROR: no such table: dummies") })
      (fun _ => none)).2.2.2.2
    { message := some (str "SQLITE_ERROR: no such table: dummies") }
    rfl (by decide) (fun s _ => rfl)

/-- Claim C7: a SqliteConnection wraps one optional handle; over every
sequence of configure/open/close calls isOpen holds iff a handle is held;
after a successful open the handle and the configured database path are
returned by the getters; close resets both fields and isOpen even when the
driver close errs; and close on a connection that is not open succeeds with a
null error and an unchanged state. -/
theorem claim_C7_connection {H ρ : Type} :
    ((initialConnState H).isOpen = false) ∧
    (∀ evs : List (ConnEvent H ρ),
      ((connRun (initialConnState H) evs).isOpen = true ↔
        ∃ h, (connRun (initialConnState H) evs).connection = some h)) ∧
    (∀ (s : ConnState H) (cfg : SqliteConfig) (db : H),
      (openStep s (Except.ok cfg) (Except.ok db)
          : ConnState H × Option (ConnectionErr ρ)).2 = none ∧
      (openStep s (Except.ok cfg) (Except.ok db)
          : ConnState H × Option (ConnectionErr ρ)).1.getConnection = some db ∧
      (openStep s (Except.ok cfg) (Except.ok db)
          : ConnState H × Option (ConnectionErr ρ)).1.getDatabaseName
          = cfg.database ∧
      (openStep s (Except.ok cfg) (Except.ok db)
          : ConnState H × Option (ConnectionErr ρ)).1.isOpen = true) ∧
    (∀ (s : ConnState H) (e : Option DriverErr), s.connection ≠ none →
      (closeStep s e : ConnState H × Option (ConnectionErr ρ)).1.connection = none ∧
      (closeStep s e : ConnState H × Option (ConnectionErr ρ)).1.databaseName = none ∧
      (closeStep s e : ConnState H × Option (ConnectionErr ρ)).1.isOpen = false) ∧
    (∀ (s : ConnState H) (e : Option DriverErr), s.connection = none →
      (closeStep s e : ConnState H × Option (ConnectionErr ρ)) = (s, none)) := by
  refine ⟨rfl, ?_, ?_, ?_, ?_⟩
  · intro evs
    simp [ConnState.isOpen, Option.isSome_iff_exists]
  · intro s cfg db
    refine ⟨rfl, rfl, rfl, rfl⟩
  · intro s e hs
    cases hc : s.connection with
    | none => exact absurd hc hs
    | some h =>
      cases e <;>
        simp [closeStep, hc, ConnState.isOpen]
  · intro s e hs
    cases e <;> simp [closeStep, hs]

/-- Witness for C7 at a concrete handle type and state. -/
theorem claim_C7_witness :
    (closeStep { connection := some 5, databaseName := some (str "./data/test.db") }
        (some { message := some (str "busy") })
        : ConnState Nat × Option (ConnectionErr Unit)).1.connection = none :=
  ((@claim_C7_connection Nat Unit).2.2.2.1
    { connection := some 5, databaseName := some (str "./data/test.db") }
    (some { message := some (str "busy") }) (by decide)).1

/-- Claim C3: the page query always carries a LIMIT equal to
paging.getTake(maxPageSize), where maxPageSize defaults to 100 and is
configurable via options.max_page_size; it carries an OFFSET exactly when
paging.getSkip(-1) is non-negative; and the delivered DataPage carries a
total - the count delivered for the COUNT query over the same filter - if
and only if paging.total is set. -/
theorem claim_C3_getPageByFilter {Row Pub : Type} (db : PageDb Row)
    (table : Str) (filter sort sel : Option Str)
    (paging : Option PagingParams) (opt : Option Int) (convert : Row → Pub) :
    (configureMaxPageSize none = 100 ∧
      (∀ v, configureMaxPageSize (some v) = v)) ∧
    (∃ pre,
      getPageQuery table filter sort sel paging (configureMaxPageSize opt)
        = pre ++ str " LIMIT "
            ++ intStr ((paging.getD PagingParams.empty).getTake
                (configureMaxPageSize opt))
            ++ (if (paging.getD PagingParams.empty).getSkip (-1) ≥ 0
                then str " OFFSET "
                  ++ intStr ((paging.getD PagingParams.empty).getSkip (-1))
                else [])) ∧
    (∀ page,
      (getPageByFilter db table filter sort sel paging
          (configureMaxPageSize opt) convert).2 = Except.ok page →
      (page.total.isSome = true ↔ (paging.getD PagingParams.empty).total = true)) ∧
    ((paging.getD PagingParams.empty).total = true →
      ∀ rows cnt,
        db.allRes (getPageQuery table filter sort sel paging
            (configureMaxPageSize opt)) = Except.ok rows →
        db.countRes (countQuery table filter) = Except.ok cnt →
        getPageByFilter db table filter sort sel paging
            (configureMaxPageSize opt) convert
          = ([getPageQuery table filter sort sel paging (configureMaxPageSize opt),
              countQuery table filter],
             Except.ok { data := (rows.getD []).map convert,
                         total := some (cnt.getD 0) })) ∧
    ((paging.getD PagingParams.empty).total = false →
      ∀ rows,
        db.allRes (getPageQuery table filter sort sel paging
            (configureMaxPageSize opt)) = Except.ok rows →
        getPageByFilter db table filter sort sel paging
            (configureMaxPageSize opt) convert
          = ([getPageQuery table filter sort sel paging (configureMaxPageSize opt)],
             Except.ok { data := (rows.getD []).map convert, total := none })) := by
  refine ⟨⟨rfl, fun v => rfl⟩, ?_, ?_, ?_, ?_⟩
  · exact ⟨str "SELECT " ++ selectClause sel ++ str " FROM " ++ quoteIdS table
      ++ whereClause filter ++ orderClause sort, by
        simp [getPageQuery, List.append_assoc]⟩
  · intro page hpage
    cases hall : db.allRes (getPageQuery table filter sort sel paging
        (configureMaxPageSize opt)) with
    | error e =>
      simp only [getPageByFilter, hall] at hpage
      exact Except.noConfusion hpage
    | ok rows =>
      by_cases ht : (paging.getD PagingParams.empty).total = true
      · cases hcnt : db.countRes (countQuery table filter) with
        | error e =>
          simp only [getPageByFilter, hall, ht, if_true, hcnt] at hpage
          exact Except.noConfusion hpage
        | ok cnt =>
          simp only [getPageByFilter, hall, ht, if_true, hcnt] at hpage
          injection hpage with h
          rw [← h]
          simp [ht]
      · have ht2 : (paging.getD PagingParams.empty).total = false := by
          cases hb : (paging.getD PagingParams.empty).total with
          | false => rfl
          | true => exact absurd hb ht
        simp only [getPageByFilter, hall, ht2, Bool.false_eq_true, if_false] at hpage
        injection hpage with h
        rw [← h]
        simp [ht2]
  · intro ht rows cnt hall hcnt
    simp [getPageByFilter, hall, ht, hcnt]
  · intro ht rows hall
    simp [getPageByFilter, hall, ht]

/-- Witness for C3 at a concrete paging with total enabled. -/
theorem claim_C3_witness :
    getPageByFilter
        { allRes := fun _ => Except.ok (some [7]),
          countRes := fun _ => Except.ok (some 1) }
        (str "dummies") (some (str "key='1'")) none none
        (some { skip := some 2, take := some 5, total := true })
        (configureMaxPageSize none) (fun r : Nat => r)
      = ([getPageQuery (str "dummies") (some (str "key='1'")) none none
            (some { skip := some 2, take := some 5, total := true })
            (configureMaxPageSize none),
          countQuery (str "dummies") (some (str "key='1'"))],
         Except.ok { data := [7], total := some 1 }) :=
  (claim_C3_getPageByFilter
      { allRes := fun _ => Except.ok (some [7]),
        countRes := fun _ => Except.ok (some 1) }
      (str "dummies") (some (str "key='1'")) none none
      (some { skip := some 2, take := some 5, total := true })
      none (fun r : Nat => r)).2.2.2.1 rfl (some [7]) (some 1) rfl rfl

/-- Claim C6: getListByFilter, getCountByFilter and deleteByFilter append a
WHERE clause with exactly the filter iff the filter is non-null and
non-empty; with a null or empty filter deleteByFilter issues the
unconditional DELETE FROM the quoted table and getCountByFilter issues the
unconditional COUNT over the whole table. -/
theorem claim_C6_filter_queries (table : Str) (filter sort sel : Option Str) :
    (∀ f, filter = some f → f ≠ [] →
      getListQuery table filter sort sel
        = str "SELECT " ++ selectClause sel ++ str " FROM " ++ quoteIdS table
            ++ (str " WHERE " ++ f) ++ orderClause sort ∧
      countQuery table filter
        = str "SELECT COUNT(*) AS count FROM " ++ quoteIdS table
            ++ (str " WHERE " ++ f) ∧
      deleteByFilterQuery table filter
        = str "DELETE FROM " ++ quoteIdS table ++ (str " WHERE " ++ f)) ∧
    (filter = none ∨ filter = some [] →
      getListQuery table filter sort sel
        = str "SELECT " ++ selectClause sel ++ str " FROM " ++ quoteIdS table
            ++ orderClause sort ∧
      countQuery table filter
        = str "SELECT COUNT(*) AS count FROM " ++ quoteIdS table ∧
      deleteByFilterQuery table filter = str "DELETE FROM " ++ quoteIdS table) := by
  constructor
  · intro f hf hne
    subst hf
    refine ⟨?_, ?_, ?_⟩ <;>
      simp [getListQuery, countQuery, deleteByFilterQuery, whereClause, hne,
        List.append_assoc]
  · rintro (hf | hf) <;> subst hf <;>
      exact ⟨by simp [getListQuery, whereClause],
        by simp [countQuery, whereClause],
        by simp [deleteByFilterQuery, whereClause]⟩

/-- Witness for C6 at a concrete filter. -/
theorem claim_C6_witness :
    deleteByFilterQuery (str "dummies") (some (str "key='1'"))
      = str "DELETE FROM " ++ quoteIdS (str "dummies")
          ++ (str " WHERE " ++ str "key='1'") :=
  ((claim_C6_filter_queries (str "dummies") (some (str "key='1'")) none none).1
    (str "key='1'") rfl (by decide)).2.2

/-- Claim C5: set, update and updatePartially issue their write statement
and only then the read-back SELECT by id, in program order on the single
connection, and the callback receives the selected row converted to public
format or null; deleteById issues its SELECT first and skips the DELETE
entirely when the SELECT finds no row, otherwise the DELETE follows the
SELECT. -/
theorem claim_C5_serialized_ops {V Row Pub ρ : Type} (d : Driver V Row)
    (table : Str) (row : List (Str × V)) (idv : V) (convert : Row → Pub)
    (convertPartial : ρ → List (Str × V)) (dt : ρ) :
    ((setProg table row idv convert).exec d
      = ([DbEvent.runStmt (setQuery table row)
            (generateValues row ++ generateValues row),
          DbEvent.getStmt (selectByIdQuery table) [idv]],
         ((d.getRes (selectByIdQuery table) [idv]).1,
          (d.getRes (selectByIdQuery table) [idv]).2.map convert))) ∧
    ((updateProg table row idv convert).exec d
      = ([DbEvent.runStmt (updateQuery table row) (generateValues row ++ [idv]),
          DbEvent.getStmt (selectByIdQuery table) [idv]],
         ((d.getRes (selectByIdQuery table) [idv]).1,
          (d.getRes (selectByIdQuery table) [idv]).2.map convert))) ∧
    ((updatePartially table convertPartial convert (some idv) (some dt)).exec d
      = ([DbEvent.runStmt (updateQuery table (convertPartial dt))
            (generateValues (convertPartial dt) ++ [idv]),
          DbEvent.getStmt (selectByIdQuery table) [idv]],
         ((d.getRes (selectByIdQuery table) [idv]).1,
          (d.getRes (selectByIdQuery table) [idv]).2.map convert))) ∧
    ((d.getRes (selectByIdQuery table) [idv]).2 = none →
      (deleteByIdProg table idv convert).exec d
        = ([DbEvent.getStmt (selectByIdQuery table) [idv]],
           ((d.getRes (selectByIdQuery table) [idv]).1, none))) ∧
    (∀ r, (d.getRes (selectByIdQuery table) [idv]).2 = some r →
      (deleteByIdProg table idv convert).exec d
        = ([DbEvent.getStmt (selectByIdQuery table) [idv],
            DbEvent.runStmt (deleteByIdQuery table) [idv]],
           (d.runRes (deleteByIdQuery table) [idv], some (convert r)))) := by
  refine ⟨?_, ?_, ?_, ?_, ?_⟩
  · simp [setProg, DbProg.exec]
  · simp [updateProg, DbProg.exec]
  · simp [updatePartially, updateProg, DbProg.exec]
  · intro hres
    simp [deleteByIdProg, DbProg.exec, hres]
  · intro r hres
    simp [deleteByIdProg, DbProg.exec, hres]

/-- Witness for C5: a concrete driver whose SELECT finds row 3 makes
deleteById issue SELECT then DELETE and deliver the row. -/
theorem claim_C5_witness :
    (deleteByIdProg (str "dummies") (9 : Nat) (fun r : Nat => r)).exec
        { runRes := fun _ _ => none, getRes := fun _ _ => (none, some 3) }
      = ([DbEvent.getStmt (selectByIdQuery (str "dummies")) [9],
          DbEvent.runStmt (deleteByIdQuery (str "dummies")) [9]],
         (none, some 3)) :=
  (claim_C5_serialized_ops
      { runRes := fun _ _ => none, getRes := fun _ _ => (none, some 3) }
      (str "dummies") [] (9 : Nat) (fun r : Nat => r)
      (fun _ : Unit => []) ()).2.2.2.2 3 rfl

/-- Claim C8: create on an item with a null id gives a freshly generated id
to a clone and never writes the caller's object; an item that already has an
id is passed through with heap and reference untouched; and the item the base
create delivers to the callback is the (possibly cloned) input item itself -
with its id - independent of every driver response, with only the single
INSERT issued and no read-back query. -/
theorem claim_C8_create {V Row : Type} (h : Heap V) (itemRef : Nat)
    (it : Item V) (genId : V) (hget : h.get itemRef = some it) :
    ((createAssignId h itemRef genId).1.get itemRef = some it) ∧
    (it.id = none →
      (createAssignId h itemRef genId).2 ≠ itemRef ∧
      (createAssignId h itemRef genId).1.get (createAssignId h itemRef genId).2
        = some { it with id := some genId }) ∧
    (it.id ≠ none → createAssignId h itemRef genId = (h, itemRef)) ∧
    (∀ (d : Driver V Row) (newIt : Item V) (table : Str)
        (convertFrom : Item V → List (Str × V)),
      ((superCreate table convertFrom (some newIt)).exec d).1
          = [DbEvent.runStmt (insertQuery table (convertFrom newIt))
              (generateValues (convertFrom newIt))] ∧
      ((superCreate table convertFrom (some newIt)).exec d).2.2 = some newIt) := by
  have hget2 : h.objs[itemRef]? = some it := hget
  have hlt : itemRef < h.objs.length := by
    by_contra hge
    push_neg at hge
    have : h.objs[itemRef]? = none := List.getElem?_eq_none hge
    rw [this] at hget2
    exact Option.noConfusion hget2
  refine ⟨?_, ?_, ?_, ?_⟩
  · cases hid : it.id with
    | some i => simp [createAssignId, Heap.get, hget2, hid]
    | none =>
      simp only [createAssignId, Heap.get, hget2, hid, Heap.alloc]
      rw [List.getElem?_append_left hlt]
      exact hget2
  · intro hid
    constructor
    · simp only [createAssignId, Heap.get, hget2, hid, Heap.alloc]
      omega
    · simp only [createAssignId, Heap.get, hget2, hid, Heap.alloc]
      exact List.getElem?_concat_length h.objs { it with id := some genId }
  · intro hid
    cases hi : it.id with
    | none => exact absurd hi hid
    | some i => simp [createAssignId, Heap.get, hget2, hi]
  · intro d newIt table convertFrom
    exact ⟨by simp [superCreate, DbProg.exec], by simp [superCreate, DbProg.exec]⟩

/-- Witness for C8 at a one-object heap holding an id-less item. -/
theorem claim_C8_witness :
    (createAssignId { objs := [{ id := none, row := [(str "key", 7)] }] } 0
        (42 : Nat)).1.get
      (createAssignId { objs := [{ id := none, row := [(str "key", 7)] }] } 0
        (42 : Nat)).2
      = some { id := some 42, row := [(str "key", (7 : Nat))] } :=
  ((@claim_C8_create Nat Nat
      { objs := [{ id := none, row := [(str "key", 7)] }] } 0
      { id := none, row := [(str "key", 7)] } 42 rfl).2.1 rfl).2

/-- Claim C9: create with a null item, set with a null item, update with a
null item or a null item id, and updatePartially with a null id or null data
all deliver a null error and a null item to the callback and issue no SQL
statement at all. -/
theorem claim_C9_null_guards {V Row Pub ρ : Type} (d : Driver V Row)
    (table : Str) (genId : V) (convertFrom : Item V → List (Str × V))
    (convert : Row → Pub) (convertPartial : ρ → List (Str × V)) :
    ((create table genId convertFrom none
        : DbProg V Row (Option DriverErr × Option (Item V))).exec d
      = ([], (none, none))) ∧
    ((set table genId convertFrom convert none).exec d = ([], (none, none))) ∧
    ((update table convertFrom convert none).exec d = ([], (none, none))) ∧
    (∀ item : Item V, item.id = none →
      (update table convertFrom convert (some item)).exec d
        = ([], (none, none))) ∧
    (∀ dt : ρ,
      (updatePartially table convertPartial convert none (some dt)).exec d
        = ([], (none, none))) ∧
    (∀ i : V,
      (updatePartially table convertPartial convert (some i) (none : Option ρ)).exec d
        = ([], (none, none))) ∧
    ((updatePartially table convertPartial convert (none : Option V)
        (none : Option ρ)).exec d = ([], (none, none))) := by
  refine ⟨rfl, rfl, rfl, ?_, fun dt => rfl, fun i => rfl, rfl⟩
  intro item hid
  simp [update, hid, DbProg.exec]

/-- Witness for C9: update on an item with a null id issues nothing. -/
theorem claim_C9_witness :
    (update (str "dummies") (fun it : Item Nat => it.row) (fun r : Nat => r)
        (some { id := none, row := [(str "key", 7)] })).exec
        { runRes := fun _ _ => none, getRes := fun _ _ => (none, none) }
      = ([], (none, none)) :=
  (claim_C9_null_guards
      { runRes := fun _ _ => none, getRes := fun _ _ => (none, none) }
      (str "dummies") (0 : Nat) (fun it : Item Nat => it.row)
      (fun r : Nat => r) (fun _ : Unit => [])).2.2.2.1
    { id := none, row := [(str "key", 7)] } rfl

end SqliteNode

